import Mathlib

/-!
Verification of the client-side polling script embedded in
src/src/index_page.h (the INDEX_PAGE string constant).

The script defines three async pollers (fetchStatus, fetchTime,
fetchSensor).  Each issues one GET request, parses the body as JSON and
writes text into DOM elements; a network failure or a non-JSON body
throws, landing in the catch block.  We embed the JSON value space, the
relevant JavaScript coercions (truthiness, ToString, strict null
comparison), each poller as a function from the request outcome to the
ordered list of DOM text writes it performs, and the top-level timer
registrations.
-/

/-- A parsed JSON value, as produced by Response.json().  An absent
object key is modelled by Option.none at lookup time (JavaScript
undefined), which is distinct from JSValue.null. -/
inductive JSValue where
  | null
  | bool (b : Bool)
  | num (n : Int)
  | str (s : String)
  | obj (fields : List (String × JSValue))

/-- Association-list lookup used for JavaScript property access j.key. -/
def lookupField : List (String × JSValue) → String → Option JSValue
  | [], _ => none
  | (k, v) :: rest, key => if k == key then some v else lookupField rest key

/-- Property access j.key: none models JavaScript undefined (key absent,
or the receiver is not an object). -/
def getField : JSValue → String → Option JSValue
  | .obj fields, key => lookupField fields key
  | _, _ => none

/-- JavaScript truthiness of a JSON value. -/
def truthyV : JSValue → Bool
  | .null => false
  | .bool b => b
  | .num n => n != 0
  | .str s => s != ""
  | .obj _ => true

/-- JavaScript truthiness of a possibly-undefined value. -/
def truthy : Option JSValue → Bool
  | none => false
  | some v => truthyV v

/-- JavaScript ToString on a JSON value. -/
def jsValueToString : JSValue → String
  | .null => "null"
  | .bool true => "true"
  | .bool false => "false"
  | .num n => toString n
  | .str s => s
  | .obj _ => "[object Object]"

/-- JavaScript ToString on a possibly-undefined value; undefined
stringifies to the text undefined. -/
def jsToString : Option JSValue → String
  | none => "undefined"
  | some v => jsValueToString v

/-- The strict comparison v !== null: false exactly when the value is
present and is JSON null; JavaScript undefined is not strictly equal to
null. -/
def strictNeNull : Option JSValue → Bool
  | some .null => false
  | _ => true

/-- A single DOM text write: element id paired with the new textContent. -/
abbrev DomWrite := String × String

/-- fetchStatus from index_page.h lines 57-70.  Input none models the
try block throwing (fetch rejection or non-JSON body); some j models a
successfully parsed body. -/
def fetchStatus : Option JSValue → List DomWrite
  | none => [("wifi", "Error")]
  | some j =>
    ("wifi",
      if truthy (getField j "connected") then
        "Connected: " ++ jsToString (getField j "ip")
      else "Not connected") ::
    (match getField j "cameraDetected" with
     | some v => [("camera", if truthyV v then "Successful" else "Unsuccessful")]
     | none =>
       match getField j "camera" with
       | some v => [("camera", if truthyV v then "Successful" else "Unsuccessful")]
       | none => [])

/-- fetchTime from index_page.h lines 73-81.  The or-expression on
j.datetime yields j.datetime when truthy, else the fallback N/A. -/
def fetchTime : Option JSValue → List DomWrite
  | none => [("datetime", "Error")]
  | some j =>
    [("datetime",
      if truthy (getField j "datetime") then jsToString (getField j "datetime")
      else "N/A")]

/-- fetchSensor from index_page.h lines 85-98.  Each field uses the
strict test field !== null; string concatenation with a degree or
percent suffix goes through JavaScript ToString.  The catch block writes
Error to temp, hum and pump only. -/
def fetchSensor : Option JSValue → List DomWrite
  | none => [("temp", "Error"), ("hum", "Error"), ("pump", "Error")]
  | some j =>
    [("temp",
       if strictNeNull (getField j "temperature") then
         jsToString (getField j "temperature") ++ " °C"
       else "N/A"),
     ("hum",
       if strictNeNull (getField j "humidity") then
         jsToString (getField j "humidity") ++ " %"
       else "N/A"),
     ("level",
       if strictNeNull (getField j "level") then
         jsToString (getField j "level") ++ " %"
       else "N/A"),
     ("pump",
       if strictNeNull (getField j "pump") then
         (if truthy (getField j "pump") then "On" else "Off")
       else "N/A")]

/-- The final textContent of an element after a list of writes is
applied in order: the last write to that id, none if never written. -/
def renderedText (writes : List DomWrite) (id : String) : Option String :=
  writes.foldl (fun acc w => if w.1 == id then some w.2 else acc) none

/-- A poller: the URL it fetches and its handler. -/
structure Poller where
  url : String
  handler : Option JSValue → List DomWrite

def statusPoller : Poller := ⟨"/status", fetchStatus⟩

def timePoller : Poller := ⟨"/time", fetchTime⟩

def sensorPoller : Poller := ⟨"/sensor", fetchSensor⟩

/-- A top-level statement of the script: an immediate invocation of a
poller, or a setInterval registration with a period in milliseconds. -/
inductive ScriptAction where
  | callNow (p : Poller)
  | repeatEvery (p : Poller) (ms : Nat)

/-- The active top-level statements of the script, in source order
(index_page.h lines 71, 82-83, 99-100).  The commented-out fetchImage
block (lines 102-114) is not part of the script. -/
def pageScript : List ScriptAction :=
  [ .callNow statusPoller,
    .callNow timePoller,
    .repeatEvery timePoller 60000,
    .callNow sensorPoller,
    .repeatEvery sensorPoller 5000 ]

/-- The URL a script action requests. -/
def actionUrl : ScriptAction → String
  | .callNow p => p.url
  | .repeatEvery p _ => p.url

/-- Whether the script fires a request to url u at time t ms after page
load: an immediate call fires at t = 0, a setInterval with period ms
fires at every positive multiple of ms. -/
def firesAt (acts : List ScriptAction) (u : String) (t : Nat) : Bool :=
  acts.any fun a =>
    match a with
    | .callNow p => p.url == u && t == 0
    | .repeatEvery p ms => p.url == u && t % ms == 0 && t != 0

/-- C1 counterexample: on a /sensor failure the water-level text is not
written at all (the catch block omits it), and on a /status failure the
camera-detection text is not written either, so neither renders Error as
the claim requires. -/
theorem catch_skips_level_and_camera :
    renderedText (fetchSensor none) "level" = none ∧
    renderedText (fetchSensor none) "level" ≠ some "Error" ∧
    renderedText (fetchStatus none) "camera" = none ∧
    renderedText (fetchStatus none) "camera" ≠ some "Error" := by
  decide

/-- C1 (amended): on a request failure, fetchSensor writes Error to the
temperature, humidity and pump texts and leaves the water-level text
unchanged; fetchStatus writes Error to the Wi-Fi text and leaves the
camera-detection text unchanged; fetchTime writes Error to the datetime
text. -/
theorem failure_error_writes :
    fetchStatus none = [("wifi", "Error")] ∧
    fetchTime none = [("datetime", "Error")] ∧
    fetchSensor none = [("temp", "Error"), ("hum", "Error"), ("pump", "Error")] := by
  decide

/-- C2 counterexample: on the successful /sensor response with an empty
JSON object (every field absent), no display text renders N/A: the code
compares with strict inequality to null, undefined passes that test, and
the texts become undefined with a unit suffix, or Off for the pump. -/
theorem absent_sensor_fields_not_na :
    renderedText (fetchSensor (some (JSValue.obj []))) "temp" = some "undefined °C" ∧
    renderedText (fetchSensor (some (JSValue.obj []))) "temp" ≠ some "N/A" ∧
    renderedText (fetchSensor (some (JSValue.obj []))) "hum" = some "undefined %" ∧
    renderedText (fetchSensor (some (JSValue.obj []))) "level" = some "undefined %" ∧
    renderedText (fetchSensor (some (JSValue.obj []))) "pump" = some "Off" := by
  decide

/-- C2 (amended): when the /sensor JSON response succeeds but a field is
absent, the strict not-null test on the undefined field succeeds and the
value branch runs: temperature renders the text undefined followed by
the degree suffix, humidity and level render undefined followed by the
percent suffix, and the pump (undefined is falsy) renders Off.  Only a
field explicitly equal to JSON null renders N/A. -/
theorem absent_sensor_field_rendering (j : JSValue) :
    (getField j "temperature" = none →
      renderedText (fetchSensor (some j)) "temp" = some "undefined °C") ∧
    (getField j "humidity" = none →
      renderedText (fetchSensor (some j)) "hum" = some "undefined %") ∧
    (getField j "level" = none →
      renderedText (fetchSensor (some j)) "level" = some "undefined %") ∧
    (getField j "pump" = none →
      renderedText (fetchSensor (some j)) "pump" = some "Off") := by
  refine ⟨fun h => ?_, fun h => ?_, fun h => ?_, fun h => ?_⟩ <;>
    simp [fetchSensor, renderedText, h, strictNeNull, jsToString, truthy]

theorem absent_sensor_field_rendering_witness :
    renderedText (fetchSensor (some (JSValue.obj []))) "pump" = some "Off" :=
  (absent_sensor_field_rendering (JSValue.obj [])).2.2.2 rfl

/-- C4: on the /sensor response with temperature null, humidity 55,
level 80 and pump true, the four texts render N/A, 55 %, 80 % and On;
in general a null field renders N/A, a boolean pump renders On when true
and Off when false, and a numeric humidity or level is suffixed with a
space and percent sign. -/
theorem sensor_nullable_rendering :
    fetchSensor (some (JSValue.obj
      [("temperature", JSValue.null), ("humidity", JSValue.num 55),
       ("level", JSValue.num 80), ("pump", JSValue.bool true)])) =
      [("temp", "N/A"), ("hum", "55 %"), ("level", "80 %"), ("pump", "On")] ∧
    (∀ j, getField j "temperature" = some JSValue.null →
      renderedText (fetchSensor (some j)) "temp" = some "N/A") ∧
    (∀ j b, getField j "pump" = some (JSValue.bool b) →
      renderedText (fetchSensor (some j)) "pump" = some (if b then "On" else "Off")) ∧
    (∀ j n, getField j "humidity" = some (JSValue.num n) →
      renderedText (fetchSensor (some j)) "hum" = some (toString n ++ " %")) ∧
    (∀ j n, getField j "level" = some (JSValue.num n) →
      renderedText (fetchSensor (some j)) "level" = some (toString n ++ " %")) := by
  refine ⟨by decide, fun j h => ?_, fun j b h => ?_, fun j n h => ?_, fun j n h => ?_⟩
  · simp [fetchSensor, renderedText, h, strictNeNull]
  · cases b <;>
      simp [fetchSensor, renderedText, h, strictNeNull, truthy, truthyV]
  · simp [fetchSensor, renderedText, h, strictNeNull, jsToString, jsValueToString]
  · simp [fetchSensor, renderedText, h, strictNeNull, jsToString, jsValueToString]

theorem sensor_nullable_rendering_witness :
    renderedText (fetchSensor (some (JSValue.obj [("pump", JSValue.bool true)]))) "pump" =
      some (if true then "On" else "Off") :=
  sensor_nullable_rendering.2.2.1 (JSValue.obj [("pump", JSValue.bool true)]) true rfl

/-- C5: on a successful /time response whose object has no datetime key,
the datetime text renders N/A; when datetime is a non-empty string, the
text renders that string. -/
theorem datetime_absent_or_string (j : JSValue) (s : String) :
    (getField j "datetime" = none →
      renderedText (fetchTime (some j)) "datetime" = some "N/A") ∧
    (getField j "datetime" = some (JSValue.str s) → s ≠ "" →
      renderedText (fetchTime (some j)) "datetime" = some s) := by
  constructor
  · intro h
    simp [fetchTime, renderedText, h, truthy]
  · intro h hs
    simp [fetchTime, renderedText, h, truthy, truthyV, jsToString, jsValueToString, hs]

theorem datetime_absent_or_string_witness :
    renderedText (fetchTime (some (JSValue.obj []))) "datetime" = some "N/A" :=
  (datetime_absent_or_string (JSValue.obj []) "x").1 rfl

/-- C3: the Wi-Fi text renders the word Connected, a colon-space and the
ip value when connected is true, renders Not connected when connected is
false, and renders Error when the /status request rejects or its body is
not JSON. -/
theorem wifi_rendering (j : JSValue) (s : String) :
    (getField j "connected" = some (JSValue.bool true) →
      getField j "ip" = some (JSValue.str s) →
      renderedText (fetchStatus (some j)) "wifi" = some ("Connected: " ++ s)) ∧
    (getField j "connected" = some (JSValue.bool false) →
      renderedText (fetchStatus (some j)) "wifi" = some "Not connected") ∧
    renderedText (fetchStatus none) "wifi" = some "Error" := by
  refine ⟨fun hc hip => ?_, fun hc => ?_, by decide⟩ <;>
  · rcases h1 : getField j "cameraDetected" with _ | v <;>
      rcases h2 : getField j "camera" with _ | w <;>
        simp [fetchStatus, renderedText, h1, h2, hc, truthy, truthyV,
          jsToString, jsValueToString, *]

theorem wifi_rendering_witness :
    renderedText (fetchStatus (some (JSValue.obj
      [("connected", JSValue.bool true), ("ip", JSValue.str "192.168.1.5")]))) "wifi" =
      some ("Connected: " ++ "192.168.1.5") :=
  (wifi_rendering (JSValue.obj
      [("connected", JSValue.bool true), ("ip", JSValue.str "192.168.1.5")])
    "192.168.1.5").1 rfl rfl

/-- C9: on a successful /status response, a present cameraDetected key
alone determines the camera-detection text (Successful when truthy,
Unsuccessful when falsy) regardless of the camera key; the camera key is
consulted only when cameraDetected is undefined; when neither key is
present the camera-detection text receives no write and is left
unchanged. -/
theorem camera_detection_priority (j : JSValue) (v : JSValue) :
    (getField j "cameraDetected" = some v →
      renderedText (fetchStatus (some j)) "camera" =
        some (if truthyV v then "Successful" else "Unsuccessful")) ∧
    (getField j "cameraDetected" = none → getField j "camera" = some v →
      renderedText (fetchStatus (some j)) "camera" =
        some (if truthyV v then "Successful" else "Unsuccessful")) ∧
    (getField j "cameraDetected" = none → getField j "camera" = none →
      renderedText (fetchStatus (some j)) "camera" = none) := by
  refine ⟨fun h1 => ?_, fun h1 h2 => ?_, fun h1 h2 => ?_⟩ <;>
    cases hv : truthyV v <;>
      simp [fetchStatus, renderedText, h1, *]

theorem camera_detection_priority_witness :
    renderedText (fetchStatus (some (JSValue.obj
      [("cameraDetected", JSValue.bool true), ("camera", JSValue.bool false)]))) "camera" =
      some (if truthyV (JSValue.bool true) then "Successful" else "Unsuccessful") :=
  (camera_detection_priority (JSValue.obj
      [("cameraDetected", JSValue.bool true), ("camera", JSValue.bool false)])
    (JSValue.bool true)).1 rfl

/-- C10: on a successful /time response, any falsy datetime value
(undefined, null, false, zero, or the empty string) renders the fallback
N/A, and when the datetime value is truthy the text renders its
JavaScript string form (the string itself for a string value). -/
theorem datetime_falsy_fallback (j : JSValue) :
    (truthy (getField j "datetime") = false →
      renderedText (fetchTime (some j)) "datetime" = some "N/A") ∧
    (getField j "datetime" = some (JSValue.str "") →
      renderedText (fetchTime (some j)) "datetime" = some "N/A") ∧
    (truthy (getField j "datetime") = true →
      renderedText (fetchTime (some j)) "datetime" =
        some (jsToString (getField j "datetime"))) := by
  refine ⟨fun h => ?_, fun h => ?_, fun h => ?_⟩
  · simp [fetchTime, renderedText, h]
  · simp [fetchTime, renderedText, h, truthy, truthyV]
  · simp [fetchTime, renderedText, h]

theorem datetime_falsy_fallback_witness :
    renderedText (fetchTime (some (JSValue.obj [("datetime", JSValue.str "")]))) "datetime" =
      some "N/A" :=
  (datetime_falsy_fallback (JSValue.obj [("datetime", JSValue.str "")])).2.1 rfl

/-- C6: the script fires each poller immediately at page load; the
sensor poll then repeats exactly every 5000 ms, the time poll exactly
every 60000 ms, and the status poll has no repeating timer, so it fires
only at load time. -/
theorem polling_schedule (t : Nat) :
    (firesAt pageScript "/sensor" t = true ↔ t % 5000 = 0) ∧
    (firesAt pageScript "/time" t = true ↔ t % 60000 = 0) ∧
    (firesAt pageScript "/status" t = true ↔ t = 0) := by
  refine ⟨?_, ?_, ?_⟩ <;>
    simp [firesAt, pageScript, statusPoller, timePoller, sensorPoller] <;>
    omega

theorem polling_schedule_witness :
    firesAt pageScript "/sensor" 5000 = true ∧
    firesAt pageScript "/time" 60000 = true ∧
    firesAt pageScript "/status" 0 = true :=
  ⟨((polling_schedule 5000).1).mpr (by decide),
   ((polling_schedule 60000).2.1).mpr (by decide),
   ((polling_schedule 0).2.2).mpr rfl⟩

/-- C7: on every execution path (success and failure alike) fetchStatus
writes only the wifi and camera texts, fetchTime writes only the
datetime text, fetchSensor writes only the temp, hum, level and pump
texts, and these three id sets are pairwise disjoint, so every DOM text
node is written by exactly one poller. -/
theorem poller_writes_disjoint :
    (∀ r, ∀ w ∈ fetchStatus r, w.1 ∈ (["wifi", "camera"] : List String)) ∧
    (∀ r, ∀ w ∈ fetchTime r, w.1 ∈ (["datetime"] : List String)) ∧
    (∀ r, ∀ w ∈ fetchSensor r, w.1 ∈ (["temp", "hum", "level", "pump"] : List String)) ∧
    (∀ x ∈ (["wifi", "camera"] : List String), x ∉ (["datetime"] : List String)) ∧
    (∀ x ∈ (["wifi", "camera"] : List String),
      x ∉ (["temp", "hum", "level", "pump"] : List String)) ∧
    (∀ x ∈ (["datetime"] : List String),
      x ∉ (["temp", "hum", "level", "pump"] : List String)) := by
  refine ⟨?_, ?_, ?_, by decide, by decide, by decide⟩
  · rintro (_ | j) w hw
    · simp only [fetchStatus] at hw
      fin_cases hw
      simp
    · rcases h1 : getField j "cameraDetected" with _ | v <;>
        rcases h2 : getField j "camera" with _ | u <;>
          simp only [fetchStatus, h1, h2] at hw <;>
          fin_cases hw <;> simp
  · rintro (_ | j) w hw <;> simp only [fetchTime] at hw <;>
      fin_cases hw <;> simp
  · rintro (_ | j) w hw <;> simp only [fetchSensor] at hw <;>
      fin_cases hw <;> simp

theorem poller_writes_disjoint_witness :
    ("wifi", "Error").1 ∈ (["wifi", "camera"] : List String) :=
  poller_writes_disjoint.1 none ("wifi", "Error") (by decide)

/-- C8: every request the script can ever issue goes to one of the three
GET endpoints /status, /time and /sensor; in particular no action
requests /image (the camera-preview fetch exists only inside a
comment). -/
theorem requested_endpoints (u : String) :
    (u ∈ pageScript.map actionUrl ↔
      u ∈ (["/status", "/time", "/sensor"] : List String)) ∧
    "/image" ∉ pageScript.map actionUrl := by
  constructor
  · simp [pageScript, actionUrl, statusPoller, timePoller, sensorPoller]
  · decide

theorem requested_endpoints_witness :
    "/status" ∈ (["/status", "/time", "/sensor"] : List String) :=
  (requested_endpoints "/status").1.mp (by decide)
